import Mathlib

/-
  Shallow embedding of `opacus/privacy_engine.py`.

  The file under `src/` defines class `PrivacyEngine` (make_private,
  make_private_with_epsilon, _prepare_model, _prepare_optimizer,
  _prepare_data_loader, get_epsilon, and the two closures accountant_hook and
  virtual_step_hook) together with the subclass `PrivacyEngineUnsafeKeepDataLoader`
  that overrides _prepare_data_loader with the identity.

  The collaborators it imports (RDPAccountant, get_noise_multiplier,
  DPDataLoader, GradSampleModule, DPOptimizer) are code of this repository that
  is not under src/; those parts are modelled from the spec (sections 3, 4.1,
  4.2, 4.3, 6 of spec.md) and are marked `Modelled from the spec:` below.

  Python floats are modelled as rationals (reals where the spec formula uses
  log); Python object state is passed explicitly; raising is modelled with
  `Except`.
-/

namespace Opacus

/-- Loss reduction mode of the step engine (spec section 3, DPStepState). -/
inductive LossReduction
| mean
| sum
deriving DecidableEq

/-- Modelled from the spec: the observable state of one trainable parameter,
as probed by `virtual_step_hook` (src lines 55-73).  `requires_grad` mirrors
`p.requires_grad`; `grad_has_noise` mirrors
`hasattr(p, "grad") and hasattr(p.grad, "has_noise")` (a gradient buffer marked
as already containing noised data); `has_grad_sample` mirrors
`hasattr(p, "grad_sample")` (per-example gradients from a backward pass). -/
structure Param where
  requires_grad : Bool
  grad_has_noise : Bool
  has_grad_sample : Bool
deriving DecidableEq

/-- Modelled from the spec: clearing a parameter's gradient state
(`module.zero_grad()` on a wrapped module clears the noised gradient buffer and
the per-example gradient buffers; spec sections 4.3 and 4.4: "clears them"). -/
def Param.zero_grad (p : Param) : Param :=
  { p with grad_has_noise := false, has_grad_sample := false }

/-- DPStepState (spec section 3): per-optimizer mutable state, plus the
defunctionalized step hook.  The source attaches `accountant_hook` as a closure
binding the derived `sample_rate` (src lines 47-53); since that closure is
determined by the bound sample rate, it is represented by
`hookSampleRate : Option ℚ` (`none` = no hook attached yet). -/
structure DPState where
  noise_multiplier : ℚ
  max_grad_norm : ℚ
  expected_batch_size : ℕ
  loss_reduction : LossReduction
  accumulated_iterations : ℕ
  hookSampleRate : Option ℚ
deriving DecidableEq

/-- An optimizer: either a plain torch optimizer (identified by an opaque id)
or a `DPOptimizer` wrapping an inner optimizer (spec section 4.3). -/
inductive Optim
| base (id : ℕ)
| dp (inner : Optim) (st : DPState)
deriving DecidableEq

/-- `optimizer.optimizer` unwrapping done by `_prepare_optimizer`
(src lines 141-143): an already-wrapped optimizer is replaced by its inner
optimizer; a plain optimizer is used as is. -/
def Optim.unwrapInner : Optim → Optim
| .dp inner _ => inner
| .base i => .base i

/-- `optim.noise_multiplier` as read by `accountant_hook` (src line 49). -/
def Optim.getNoiseMultiplier : Optim → ℚ
| .base _ => 0
| .dp _ st => st.noise_multiplier

/-- `optim.max_grad_norm` (spec section 3, DPStepState). -/
def Optim.getMaxGradNorm : Optim → ℚ
| .base _ => 0
| .dp _ st => st.max_grad_norm

/-- `optim.accumulated_iterations` as read by `accountant_hook` (src line 50). -/
def Optim.getAccumulatedIterations : Optim → ℕ
| .base _ => 0
| .dp _ st => st.accumulated_iterations

/-- `optimizer.attach_step_hook(accountant_hook)` (src line 53), represented by
recording the sample rate the hook closes over. -/
def Optim.attach_step_hook (o : Optim) (sample_rate : ℚ) : Optim :=
  match o with
  | .base i => .base i
  | .dp inner st => .dp inner { st with hookSampleRate := some sample_rate }

/-- Modelled from the spec: `DPOptimizer.virtual_step` (opacus/optimizer.py is
not under src/).  Spec section 4.3: a virtual step clips and folds the pending
per-example gradients into the running aggregate and increments
`accumulated_iterations`; it never touches the privacy ledger (the gradient
tensors themselves are outside this embedding). -/
def Optim.virtual_step : Optim → Optim
| .base i => .base i
| .dp inner st => .dp inner { st with accumulated_iterations := st.accumulated_iterations + 1 }

/-- A PrivacyStep record (spec section 3): one real optimization step. -/
structure PrivacyStep where
  noise_multiplier : ℚ
  sample_rate : ℚ
deriving DecidableEq

/-- Modelled from the spec: the `RDPAccountant` (opacus/accountants, not under
src/) owns the append-only PrivacyLedger (spec section 3). -/
structure RDPAccountant where
  history : List PrivacyStep
deriving DecidableEq

/-- Error kinds of the accountant (spec section 7). -/
inductive AccountantError
| invalidParameter
deriving DecidableEq

/-- Modelled from the spec: `RDPAccountant.step` = `record_step` of spec
section 4.1: appends a PrivacyStep; fails with `InvalidParameterError` if either
value is non-positive or `sample_rate > 1`. -/
def RDPAccountant.step (acc : RDPAccountant) (noise_multiplier sample_rate : ℚ) :
    Except AccountantError RDPAccountant :=
  if noise_multiplier ≤ 0 ∨ sample_rate ≤ 0 ∨ 1 < sample_rate then
    .error .invalidParameter
  else
    .ok ⟨acc.history ++ [⟨noise_multiplier, sample_rate⟩]⟩

/-- The `accountant_hook` closure of `make_private` (src lines 47-51): calls
`self.accountant.step` with the optimizer's noise multiplier and
`sample_rate * optim.accumulated_iterations`. -/
def accountant_hook (sample_rate : ℚ) (acc : RDPAccountant) (optim : Optim) :
    Except AccountantError RDPAccountant :=
  acc.step optim.getNoiseMultiplier (sample_rate * (optim.getAccumulatedIterations : ℚ))

/-- Modelled from the spec: the real step of `DPOptimizer` (opacus/optimizer.py
is not under src/).  Spec sections 4.3 and 7: a real step invoked with zero
accumulated iterations is a harmless no-op that records no ledger entry;
otherwise the attached post-step hook (here: `accountant_hook`, bound at
`attach_step_hook` time) is invoked once with the pre-reset
`accumulated_iterations`, and `accumulated_iterations` resets to 0. -/
def DPOptimizer.step (o : Optim) (acc : RDPAccountant) :
    Except AccountantError (Optim × RDPAccountant) :=
  match o with
  | .base i => .ok (.base i, acc)
  | .dp inner st =>
    if st.accumulated_iterations = 0 then
      .ok (.dp inner st, acc)
    else
      match st.hookSampleRate with
      | none => .ok (.dp inner { st with accumulated_iterations := 0 }, acc)
      | some q =>
        match accountant_hook q acc (.dp inner st) with
        | .error e => .error e
        | .ok acc2 => .ok (.dp inner { st with accumulated_iterations := 0 }, acc2)

/-- A GradSampleModule wrapper (spec section 6, GradientSampleProvider): holds
the wrapped parameters, the wrapping configuration, and the registered
pre-forward hook, defunctionalized as the optimizer it binds (the source
registers `functools partial of virtual_step_hook with optimizer` at
src lines 75-80). -/
structure GSModule where
  params : List Param
  batch_first : Bool
  loss_reduction : LossReduction
  preHook : Option Optim
deriving DecidableEq

/-- A model: either a plain torch module (its parameter list) or a
GradSampleModule wrapper. -/
inductive Module
| plain (params : List Param)
| wrapped (g : GSModule)
deriving DecidableEq

/-- The registered pre-forward hook of a module, if any. -/
def Module.preHook : Module → Option Optim
| .plain _ => none
| .wrapped g => g.preHook

/-- `module.register_forward_pre_hook(...)` (src lines 75-80), recording the
optimizer bound into the hook.  (`make_private` only ever registers on a
wrapped module.) -/
def Module.register_forward_pre_hook : Module → Optim → Module
| .plain ps, _ => .plain ps
| .wrapped g, o => .wrapped { g with preHook := some o }

/-- A data loader, exposing `number_of_batches` (its length) and
`dataset_size`, and whether it is already a DPDataLoader
(spec section 6, SampledBatchSource). -/
structure DataLoader where
  isDP : Bool
  numBatches : ℕ
  datasetSize : ℕ
deriving DecidableEq

/-- Modelled from the spec: `DPDataLoader.from_data_loader`
(opacus/data_loader.py is not under src/): wraps the data source with the
Poisson-sampling capability, exposing the same `number_of_batches` and
`dataset_size` (spec sections 4.4 and 6). -/
def DPDataLoader.from_data_loader (dl : DataLoader) : DataLoader :=
  { dl with isDP := true }

/-- Error kind of the pre-forward hook (spec section 7 names it
`UnclearedGradientError`; the source raises
`ValueError("Not calling zero_grad breaks accounting")` at src line 65). -/
inductive HookError
| unclearedGradient
deriving DecidableEq

/-- The parameter scan of `virtual_step_hook` (src lines 56-69): iterate over
`module.parameters()`; skip parameters without `requires_grad`; raise on a
gradient buffer marked as noised; stop (with `has_grad_sample = True`) at the
first parameter carrying per-example gradients. -/
def hookScan : List Param → Except HookError Bool
| [] => .ok false
| p :: ps =>
  if p.requires_grad = false then hookScan ps
  else if p.grad_has_noise then .error .unclearedGradient
  else if p.has_grad_sample then .ok true
  else hookScan ps

/-- The `virtual_step_hook` closure of `make_private` (src lines 55-73): scan
parameters; on a detected stale gradient raise; if per-example gradients were
found, perform `optimizer.virtual_step()` and `module.zero_grad()` (returning
the updated parameter list and optimizer), else leave both unchanged. -/
def virtual_step_hook (params : List Param) (optimizer : Optim) :
    Except HookError (List Param × Optim) :=
  match hookScan params with
  | .error e => .error e
  | .ok true => .ok (params.map Param.zero_grad, optimizer.virtual_step)
  | .ok false => .ok (params, optimizer)

/-- The `PrivacyEngine` (src lines 15-18): owns one accountant; stores the
`secure_mode` flag (src line 18, `TODO: actually support it`). -/
structure PrivacyEngine where
  accountant : RDPAccountant
  secure_mode : Bool
deriving DecidableEq

/-- `PrivacyEngine._prepare_model` (src lines 120-131): an already-wrapped
module is returned as is; otherwise it is wrapped in a fresh GradSampleModule
(Modelled from the spec: the `GradSampleModule` constructor, not under src/,
wraps the module, preserving its parameters, with no hook registered yet). -/
def _prepare_model (module : Module) (batch_first : Bool)
    (loss_reduction : LossReduction) : Module :=
  match module with
  | .wrapped g => .wrapped g
  | .plain ps => .wrapped ⟨ps, batch_first, loss_reduction, none⟩

/-- `PrivacyEngine._prepare_optimizer` (src lines 133-151): an already-wrapped
optimizer is first unwrapped to its inner optimizer; then a fresh `DPOptimizer`
is constructed around it (Modelled from the spec: the `DPOptimizer`
constructor, not under src/, initializes `accumulated_iterations` to 0 and has
no step hook attached yet; spec section 3, DPStepState). -/
def _prepare_optimizer (optimizer : Optim) (noise_multiplier max_grad_norm : ℚ)
    (expected_batch_size : ℕ) (loss_reduction : LossReduction) : Optim :=
  .dp optimizer.unwrapInner
    ⟨noise_multiplier, max_grad_norm, expected_batch_size, loss_reduction, 0, none⟩

/-- `PrivacyEngine._prepare_data_loader` (src lines 153-157): an already-wrapped
loader is returned as is; otherwise `DPDataLoader.from_data_loader` wraps it. -/
def _prepare_data_loader (dl : DataLoader) : DataLoader :=
  if dl.isDP then dl else DPDataLoader.from_data_loader dl

/-- The overridden `_prepare_data_loader` of the subclass
`PrivacyEngineUnsafeKeepDataLoader` (src lines 164-166): returns the data
loader unchanged. -/
def keep_data_loader (dl : DataLoader) : DataLoader := dl

/-- Body of `PrivacyEngine.make_private` (src lines 20-82), with the
data-loader preparation method passed explicitly so that the subclass override
is the same body with `keep_data_loader` substituted.  The engine argument
mirrors `self`: the attached accountant hook closes over `self.accountant`,
which is represented by the bound sample rate (see `DPState.hookSampleRate`),
so the engine state itself is read only at step time. -/
def make_private_core (prepare_dl : DataLoader → DataLoader)
    (engine : PrivacyEngine) (module : Module) (optimizer : Optim)
    (data_loader : DataLoader) (noise_multiplier max_grad_norm : ℚ)
    (batch_first : Bool) (loss_reduction : LossReduction) :
    Module × Optim × DataLoader :=
  let _ := engine
  let module2 := _prepare_model module batch_first loss_reduction
  let data_loader2 := prepare_dl data_loader
  let sample_rate : ℚ := 1 / (data_loader2.numBatches : ℚ)
  let expected_batch_size : ℕ :=
    ((data_loader2.datasetSize : ℚ) * sample_rate).floor.toNat
  let optimizer2 := _prepare_optimizer optimizer noise_multiplier max_grad_norm
    expected_batch_size loss_reduction
  let optimizer3 := optimizer2.attach_step_hook sample_rate
  let module3 := module2.register_forward_pre_hook optimizer3
  (module3, optimizer3, data_loader2)

/-- `PrivacyEngine.make_private` (src lines 20-82). -/
def make_private (engine : PrivacyEngine) (module : Module) (optimizer : Optim)
    (data_loader : DataLoader) (noise_multiplier max_grad_norm : ℚ)
    (batch_first : Bool) (loss_reduction : LossReduction) :
    Module × Optim × DataLoader :=
  make_private_core _prepare_data_loader engine module optimizer data_loader
    noise_multiplier max_grad_norm batch_first loss_reduction

/-- `make_private` of the subclass `PrivacyEngineUnsafeKeepDataLoader`
(src lines 164-166): the inherited body with the overridden data-loader
preparation, which skips wrapping entirely. -/
def make_private_keep_data_loader (engine : PrivacyEngine) (module : Module)
    (optimizer : Optim) (data_loader : DataLoader)
    (noise_multiplier max_grad_norm : ℚ) (batch_first : Bool)
    (loss_reduction : LossReduction) : Module × Optim × DataLoader :=
  make_private_core keep_data_loader engine module optimizer data_loader
    noise_multiplier max_grad_norm batch_first loss_reduction

/-- `PrivacyEngine.make_private_with_epsilon` (src lines 85-118):
`sample_rate = 1 / len(data_loader)` on the given (unwrapped) loader, then
delegation to `make_private` with the calibrated noise multiplier.
`get_noise_multiplier` (opacus/accountants/rdp.py, not under src/) is passed in
as `gnm`: the spec (section 4.2) specifies it as a bounded monotone binary
search whose result depends only on the arguments the source passes
(target_epsilon, target_delta, sample_rate, epochs, alphas, sigma_min,
sigma_max); the claims here concern which arguments it receives and how its
result is used, not the value it returns. -/
def make_private_with_epsilon
    (gnm : ℚ → ℚ → ℚ → ℕ → Option (List ℚ) → Option ℚ → Option ℚ → ℚ)
    (engine : PrivacyEngine) (module : Module) (optimizer : Optim)
    (data_loader : DataLoader) (target_epsilon target_delta : ℚ) (epochs : ℕ)
    (max_grad_norm : ℚ) (batch_first : Bool) (loss_reduction : LossReduction)
    (alphas : Option (List ℚ)) (sigma_min sigma_max : Option ℚ) :
    Module × Optim × DataLoader :=
  let sample_rate : ℚ := 1 / (data_loader.numBatches : ℚ)
  make_private engine module optimizer data_loader
    (gnm target_epsilon target_delta sample_rate epochs alphas sigma_min sigma_max)
    max_grad_norm batch_first loss_reduction

/-- Modelled from the spec: the per-order cumulative Rényi bound of
`compute_epsilon` (spec section 4.1, RDPAccountant is not under src/): for an
order α, the sum over the ledger of the per-step Rényi divergence bound for a
subsampled Gaussian mechanism, plus the RDP-to-DP conversion term
`log(1/δ)/(α-1)`.  The per-step bound itself is the mathematical function
`rdpBound α σ q`, passed in as a parameter since the spec fixes only its role,
not a closed formula. -/
noncomputable def eps_alpha (rdpBound : ℝ → ℝ → ℝ → ℝ) (delta : ℝ)
    (history : List PrivacyStep) (alpha : ℝ) : ℝ :=
  (history.map (fun s => rdpBound alpha (s.noise_multiplier : ℝ) (s.sample_rate : ℝ))).sum
    + Real.log (1 / delta) / (alpha - 1)

/-- Modelled from the spec: `compute_epsilon` (spec section 4.1): the minimum
over the candidate Rényi orders (`alpha0 :: orders`, a fixed nonempty
configuration set) of the per-order (ε, δ) bound. -/
noncomputable def compute_epsilon (rdpBound : ℝ → ℝ → ℝ → ℝ) (alpha0 : ℝ)
    (orders : List ℝ) (delta : ℝ) (history : List PrivacyStep) : ℝ :=
  (orders.map (eps_alpha rdpBound delta history)).foldl min
    (eps_alpha rdpBound delta history alpha0)

/-- Modelled from the spec: `RDPAccountant.get_privacy_spent` returns the pair
of the computed ε (spec section 4.1) and the order attaining it; the source
engine reads only component `[0]` (src line 161). -/
noncomputable def RDPAccountant.get_privacy_spent (acc : RDPAccountant)
    (rdpBound : ℝ → ℝ → ℝ → ℝ) (alpha0 : ℝ) (orders : List ℝ) (delta : ℝ) :
    ℝ × ℝ :=
  (compute_epsilon rdpBound alpha0 orders delta acc.history,
   orders.foldl
     (fun best a =>
       if eps_alpha rdpBound delta acc.history a
            < eps_alpha rdpBound delta acc.history best then a else best)
     alpha0)

/-- `PrivacyEngine.get_epsilon` (src lines 160-161):
`return self.accountant.get_privacy_spent(delta)[0]`.  The `alphas` parameter
of the source signature is accepted and never read.  The accountant's
mathematical configuration (`rdpBound`, `alpha0 :: orders`) is passed
explicitly, as in `compute_epsilon` above. -/
noncomputable def PrivacyEngine.get_epsilon (engine : PrivacyEngine)
    (rdpBound : ℝ → ℝ → ℝ → ℝ) (alpha0 : ℝ) (orders : List ℝ) (delta : ℝ)
    (alphas : Option (List ℝ)) : ℝ :=
  (engine.accountant.get_privacy_spent rdpBound alpha0 orders delta).1

/-- A concrete stand-in calibrator (constant noise multiplier 1), used only to
instantiate universally quantified calibrator arguments at concrete inputs. -/
def constCalibrator : ℚ → ℚ → ℚ → ℕ → Option (List ℚ) → Option ℚ → Option ℚ → ℚ :=
  fun _ _ _ _ _ _ _ => 1

/-- C3: for every data loader passed to `make_private`, the derived sampling
parameters satisfy `sample_rate = 1 / number_of_batches` (number of batches of
the wrapped data loader, which wrapping preserves) and
`expected_batch_size = floor(dataset_size * sample_rate)`, and exactly these
values are handed to the wrapped optimizer (as its expected batch size) and
bound into the accountant hook (as its sample rate). -/
theorem make_private_sampling_parameters
    (engine : PrivacyEngine) (module : Module) (optimizer : Optim)
    (dl : DataLoader) (noise_multiplier max_grad_norm : ℚ) (bf : Bool)
    (lr : LossReduction) (h : 0 < dl.numBatches) :
    (make_private engine module optimizer dl noise_multiplier max_grad_norm bf lr).2.1
      = .dp optimizer.unwrapInner
          ⟨noise_multiplier, max_grad_norm,
           (((_prepare_data_loader dl).datasetSize : ℚ)
              * (1 / ((_prepare_data_loader dl).numBatches : ℚ))).floor.toNat,
           lr, 0, some (1 / ((_prepare_data_loader dl).numBatches : ℚ))⟩
  ∧ (make_private engine module optimizer dl noise_multiplier max_grad_norm bf lr).2.2
      = _prepare_data_loader dl
  ∧ (_prepare_data_loader dl).numBatches = dl.numBatches
  ∧ (_prepare_data_loader dl).datasetSize = dl.datasetSize := by
  refine ⟨rfl, rfl, ?_, ?_⟩ <;>
    · unfold _prepare_data_loader DPDataLoader.from_data_loader
      split <;> rfl

/-- Witness for C3 at a concrete input: a plain loader with 4 batches over a
dataset of 22 records yields sample rate 1/4 and expected batch size 5. -/
theorem make_private_sampling_parameters_witness :
    (make_private ⟨⟨[]⟩, false⟩ (.plain []) (.base 0) ⟨false, 4, 22⟩ 1 1 true .mean).2.1
      = .dp (Optim.base 0).unwrapInner
          ⟨1, 1,
           (((_prepare_data_loader ⟨false, 4, 22⟩).datasetSize : ℚ)
              * (1 / ((_prepare_data_loader ⟨false, 4, 22⟩).numBatches : ℚ))).floor.toNat,
           .mean, 0, some (1 / ((_prepare_data_loader ⟨false, 4, 22⟩).numBatches : ℚ))⟩
  ∧ (make_private ⟨⟨[]⟩, false⟩ (.plain []) (.base 0) ⟨false, 4, 22⟩ 1 1 true .mean).2.2
      = _prepare_data_loader ⟨false, 4, 22⟩
  ∧ (_prepare_data_loader ⟨false, 4, 22⟩).numBatches = (4 : ℕ)
  ∧ (_prepare_data_loader ⟨false, 4, 22⟩).datasetSize = (22 : ℕ) :=
  make_private_sampling_parameters ⟨⟨[]⟩, false⟩ (.plain []) (.base 0)
    ⟨false, 4, 22⟩ 1 1 true .mean (by decide)

/-- C8: `make_private` performs no validation of its numeric arguments: for
every `noise_multiplier` and `max_grad_norm`, including non-positive values, it
completes (it is a total function of this model, mirroring the absence of any
validation in the source, src line 30) and passes both values through unchanged
into the constructed DPOptimizer. -/
theorem make_private_no_numeric_validation
    (engine : PrivacyEngine) (module : Module) (optimizer : Optim)
    (dl : DataLoader) (bf : Bool) (lr : LossReduction)
    (noise_multiplier max_grad_norm : ℚ) (h : 0 < dl.numBatches) :
    ((make_private engine module optimizer dl noise_multiplier max_grad_norm bf lr).2.1).getNoiseMultiplier
      = noise_multiplier
  ∧ ((make_private engine module optimizer dl noise_multiplier max_grad_norm bf lr).2.1).getMaxGradNorm
      = max_grad_norm :=
  ⟨rfl, rfl⟩

/-- Witness for C8 at a concrete input with non-positive values: noise
multiplier -1 and clipping norm 0 are accepted and passed through. -/
theorem make_private_no_numeric_validation_witness :
    ((make_private ⟨⟨[]⟩, false⟩ (.plain []) (.base 0) ⟨false, 3, 9⟩ (-1) 0 true .mean).2.1).getNoiseMultiplier
      = (-1 : ℚ)
  ∧ ((make_private ⟨⟨[]⟩, false⟩ (.plain []) (.base 0) ⟨false, 3, 9⟩ (-1) 0 true .mean).2.1).getMaxGradNorm
      = (0 : ℚ) :=
  make_private_no_numeric_validation ⟨⟨[]⟩, false⟩ (.plain []) (.base 0)
    ⟨false, 3, 9⟩ true .mean (-1) 0 (by decide)

/-- C9: the `secure_mode` constructor flag has no effect on behavior: two
engines differing only in `secure_mode` produce identical results for
`make_private`, `make_private_with_epsilon` and `get_epsilon` on identical
inputs; the flag is stored but never read. -/
theorem secure_mode_has_no_effect
    (L : List PrivacyStep) (b₁ b₂ : Bool) (module : Module) (optimizer : Optim)
    (dl : DataLoader) (noise_multiplier max_grad_norm : ℚ) (bf : Bool)
    (lr : LossReduction)
    (gnm : ℚ → ℚ → ℚ → ℕ → Option (List ℚ) → Option ℚ → Option ℚ → ℚ)
    (target_epsilon target_delta : ℚ) (epochs : ℕ)
    (alphas : Option (List ℚ)) (sigma_min sigma_max : Option ℚ)
    (rdpBound : ℝ → ℝ → ℝ → ℝ) (alpha0 : ℝ) (orders : List ℝ) (delta : ℝ)
    (A : Option (List ℝ)) :
    make_private ⟨⟨L⟩, b₁⟩ module optimizer dl noise_multiplier max_grad_norm bf lr
      = make_private ⟨⟨L⟩, b₂⟩ module optimizer dl noise_multiplier max_grad_norm bf lr
  ∧ make_private_with_epsilon gnm ⟨⟨L⟩, b₁⟩ module optimizer dl target_epsilon
        target_delta epochs max_grad_norm bf lr alphas sigma_min sigma_max
      = make_private_with_epsilon gnm ⟨⟨L⟩, b₂⟩ module optimizer dl target_epsilon
        target_delta epochs max_grad_norm bf lr alphas sigma_min sigma_max
  ∧ PrivacyEngine.get_epsilon ⟨⟨L⟩, b₁⟩ rdpBound alpha0 orders delta A
      = PrivacyEngine.get_epsilon ⟨⟨L⟩, b₂⟩ rdpBound alpha0 orders delta A :=
  ⟨rfl, rfl, rfl⟩

/-- C10: `get_epsilon` ignores its `alphas` parameter: for every engine state
and every delta, any two choices of `alphas` (including the default) give the
same value. -/
theorem get_epsilon_ignores_alphas
    (engine : PrivacyEngine) (rdpBound : ℝ → ℝ → ℝ → ℝ) (alpha0 : ℝ)
    (orders : List ℝ) (delta : ℝ) (A A' : Option (List ℝ)) :
    engine.get_epsilon rdpBound alpha0 orders delta A
      = engine.get_epsilon rdpBound alpha0 orders delta A' :=
  rfl

/-- C6: calling a real optimizer step when zero iterations have been
accumulated is a harmless no-op: it does not raise (the result is `.ok`), the
optimizer is unchanged, and the accountant's ledger is unchanged (no
PrivacyStep is recorded). -/
theorem real_step_zero_accumulation_noop
    (inner : Optim) (st : DPState) (acct : RDPAccountant)
    (h : st.accumulated_iterations = 0) :
    DPOptimizer.step (.dp inner st) acct = .ok (.dp inner st, acct) := by
  simp [DPOptimizer.step, h]

/-- Witness for C6 at a concrete input: a freshly wrapped optimizer (as
produced by `make_private`, with zero accumulated iterations) steps to itself
with the empty ledger unchanged. -/
theorem real_step_zero_accumulation_noop_witness :
    DPOptimizer.step (.dp (.base 0) ⟨1, 1, 5, .mean, 0, some (1/4)⟩) ⟨[]⟩
      = .ok (.dp (.base 0) ⟨1, 1, 5, .mean, 0, some (1/4)⟩, ⟨[]⟩) :=
  real_step_zero_accumulation_noop (.base 0) ⟨1, 1, 5, .mean, 0, some (1/4)⟩ ⟨[]⟩ rfl

/-- C4 counterexample: re-wrapping is NOT idempotent for the optimizer.  At a
concrete input, `make_private` applied to an optimizer that is already a
DPOptimizer does not return the existing wrapper itself: the source
(src lines 141-151) unwraps it and constructs a fresh DPOptimizer, so the
result differs from the passed-in wrapper (here: different noise multiplier,
clipping norm, reset accumulation counter). -/
theorem rewrap_optimizer_not_identity_counterexample :
    (make_private ⟨⟨[]⟩, false⟩ (.plain [])
        (Optim.dp (.base 7) ⟨2, 3, 5, .sum, 4, some (1/3)⟩)
        ⟨true, 4, 20⟩ 1 1 true .mean).2.1
      ≠ Optim.dp (.base 7) ⟨2, 3, 5, .sum, 4, some (1/3)⟩ := by
  decide

/-- C4 amended: re-wrapping an already-wrapped model or data loader returns
the existing wrapper itself (and the unsafe variant returns any data loader
unchanged); an already-wrapped optimizer, in contrast, is first unwrapped to
its inner optimizer and a fresh DPOptimizer is constructed around that inner
optimizer with the new parameters — so the optimizer is never double-wrapped,
but the existing wrapper itself is not returned. -/
theorem rewrap_amended
    : (∀ (g : GSModule) (bf : Bool) (lr : LossReduction),
        _prepare_model (.wrapped g) bf lr = .wrapped g)
    ∧ (∀ dl : DataLoader, dl.isDP = true → _prepare_data_loader dl = dl)
    ∧ (∀ dl : DataLoader, keep_data_loader dl = dl)
    ∧ (∀ (engine : PrivacyEngine) (module : Module) (optimizer : Optim)
         (dl : DataLoader) (σ γ : ℚ) (bf : Bool) (lr : LossReduction),
        (make_private_keep_data_loader engine module optimizer dl σ γ bf lr).2.2 = dl)
    ∧ (∀ (inner : Optim) (st : DPState) (σ γ : ℚ) (ebs : ℕ) (lr : LossReduction),
        _prepare_optimizer (.dp inner st) σ γ ebs lr
          = .dp inner ⟨σ, γ, ebs, lr, 0, none⟩) := by
  refine ⟨fun g bf lr => rfl, fun dl h => ?_, fun dl => rfl,
    fun engine module optimizer dl σ γ bf lr => rfl,
    fun inner st σ γ ebs lr => rfl⟩
  simp [_prepare_data_loader, h]

/-- Witness for C4 amended at concrete inputs: an already-wrapped module and
an already-wrapped (DP) data loader come back unchanged; the unsafe variant
returns a plain loader unchanged; re-preparing a wrapped optimizer yields a
fresh wrapper around its inner optimizer. -/
theorem rewrap_amended_witness :
    _prepare_model (.wrapped ⟨[], true, .mean, none⟩) false .sum
      = .wrapped ⟨[], true, .mean, none⟩
  ∧ _prepare_data_loader ⟨true, 3, 9⟩ = ⟨true, 3, 9⟩
  ∧ keep_data_loader ⟨false, 3, 9⟩ = ⟨false, 3, 9⟩
  ∧ (make_private_keep_data_loader ⟨⟨[]⟩, false⟩ (.plain []) (.base 0)
        ⟨false, 3, 9⟩ 1 1 true .mean).2.2 = ⟨false, 3, 9⟩
  ∧ _prepare_optimizer (.dp (.base 7) ⟨2, 3, 5, .sum, 4, some (1/3)⟩) 1 1 5 .mean
      = .dp (.base 7) ⟨1, 1, 5, .mean, 0, none⟩ :=
  ⟨rewrap_amended.1 ⟨[], true, .mean, none⟩ false .sum,
   rewrap_amended.2.1 ⟨true, 3, 9⟩ rfl,
   rewrap_amended.2.2.1 ⟨false, 3, 9⟩,
   rewrap_amended.2.2.2.1 ⟨⟨[]⟩, false⟩ (.plain []) (.base 0) ⟨false, 3, 9⟩ 1 1 true .mean,
   rewrap_amended.2.2.2.2 (.base 7) ⟨2, 3, 5, .sum, 4, some (1/3)⟩ 1 1 5 .mean⟩

/-- C5: `make_private_with_epsilon` computes `sample_rate = 1/number_of_batches`
from the data loader, hands the noise calibrator the target (ε, δ), that sample
rate and the epoch count — which together encode the full training schedule of
`steps = epochs * number_of_batches`, since `epochs / sample_rate` equals that
product — and delegates to `make_private` with the calibrated noise multiplier
and all other arguments unchanged, returning exactly the triple `make_private`
would return for that noise multiplier. -/
theorem make_private_with_epsilon_delegates
    (gnm : ℚ → ℚ → ℚ → ℕ → Option (List ℚ) → Option ℚ → Option ℚ → ℚ)
    (engine : PrivacyEngine) (module : Module) (optimizer : Optim)
    (dl : DataLoader) (target_epsilon target_delta : ℚ) (epochs : ℕ)
    (max_grad_norm : ℚ) (bf : Bool) (lr : LossReduction)
    (alphas : Option (List ℚ)) (sigma_min sigma_max : Option ℚ)
    (h : 0 < dl.numBatches) :
    make_private_with_epsilon gnm engine module optimizer dl target_epsilon
        target_delta epochs max_grad_norm bf lr alphas sigma_min sigma_max
      = make_private engine module optimizer dl
          (gnm target_epsilon target_delta (1 / (dl.numBatches : ℚ)) epochs
            alphas sigma_min sigma_max)
          max_grad_norm bf lr
  ∧ (epochs : ℚ) / (1 / (dl.numBatches : ℚ)) = ((epochs * dl.numBatches : ℕ) : ℚ) := by
  refine ⟨rfl, ?_⟩
  have hn : ((dl.numBatches : ℚ)) ≠ 0 := by
    exact_mod_cast Nat.pos_iff_ne_zero.mp h
  push_cast
  field_simp

/-- Witness for C5 at a concrete input: with 5 batches and 2 epochs the
calibrator is handed sample rate 1/5 and the schedule encodes 10 steps. -/
theorem make_private_with_epsilon_delegates_witness :
    make_private_with_epsilon constCalibrator ⟨⟨[]⟩, false⟩
        (.plain []) (.base 0) ⟨false, 5, 25⟩ 3 (1/100000) 2 1 true .mean none none none
      = make_private ⟨⟨[]⟩, false⟩ (.plain []) (.base 0) ⟨false, 5, 25⟩
          (constCalibrator 3 (1/100000) (1 / ((5 : ℕ) : ℚ)) 2 none none none)
          1 true .mean
  ∧ ((2 : ℕ) : ℚ) / (1 / ((5 : ℕ) : ℚ)) = (((2 * 5 : ℕ)) : ℚ) := by
  have := make_private_with_epsilon_delegates constCalibrator
    ⟨⟨[]⟩, false⟩ (.plain []) (.base 0) ⟨false, 5, 25⟩ 3 (1/100000) 2 1 true .mean
    none none none (by decide)
  exact this

/-- Iterating `virtual_step` k times on a wrapped optimizer adds k to its
accumulation counter and changes nothing else (in particular: it returns no
ledger, so virtual steps cannot add ledger entries). -/
theorem virtual_step_iterate (k : ℕ) (inner : Optim) (st : DPState) :
    Optim.virtual_step^[k] (.dp inner st)
      = .dp inner { st with accumulated_iterations := st.accumulated_iterations + k } := by
  induction k with
  | zero => rfl
  | succ n ih =>
    rw [Function.iterate_succ_apply', ih]
    rfl

/-- A real step on a wrapped optimizer with hook sample rate q and k > 0
accumulated iterations appends exactly the entry (σ, q·k) and resets the
counter, provided the recorded values pass the accountant's validation. -/
theorem step_after_virtual (inner : Optim) (σ γ q : ℚ) (e : ℕ)
    (lr : LossReduction) (k : ℕ) (acct : RDPAccountant) (hk : k ≠ 0)
    (hσ : ¬ σ ≤ 0) (hq0 : ¬ q * (k : ℚ) ≤ 0) (hq1 : ¬ 1 < q * (k : ℚ)) :
    DPOptimizer.step (Optim.virtual_step^[k] (.dp inner ⟨σ, γ, e, lr, 0, some q⟩)) acct
      = .ok (.dp inner ⟨σ, γ, e, lr, 0, some q⟩, ⟨acct.history ++ [⟨σ, q * (k : ℚ)⟩]⟩) := by
  rw [virtual_step_iterate]
  simp only [DPOptimizer.step, accountant_hook, RDPAccountant.step,
    Optim.getNoiseMultiplier, Optim.getAccumulatedIterations, Nat.zero_add]
  simp [hk, hσ, hq0, hq1]

/-- C2: for every optimizer wrapped by `make_private`, accumulating k virtual
steps followed by exactly one real optimizer step appends exactly one
PrivacyStep to the accountant's ledger, whose noise multiplier is the
optimizer's noise multiplier and whose sample rate is the derived base sample
rate `1/number_of_batches` multiplied by k; the k virtual steps themselves add
no entries (`virtual_step` acts on the optimizer alone, see
`virtual_step_iterate`), and the step resets the optimizer to its pre-window
state.  The side conditions 0 < σ and 1 ≤ k ≤ number_of_batches are the
accountant's own PrivacyStep validity bounds (spec sections 3 and 4.1). -/
theorem virtual_then_real_step_records_one
    (engine : PrivacyEngine) (module : Module) (optimizer : Optim)
    (dl : DataLoader) (σ γ : ℚ) (bf : Bool) (lr : LossReduction)
    (k : ℕ) (acct : RDPAccountant)
    (hn : 0 < dl.numBatches) (hk : 1 ≤ k) (hkn : k ≤ dl.numBatches) (hσ : 0 < σ) :
    DPOptimizer.step
        (Optim.virtual_step^[k] ((make_private engine module optimizer dl σ γ bf lr).2.1))
        acct
      = .ok ((make_private engine module optimizer dl σ γ bf lr).2.1,
             ⟨acct.history ++ [⟨σ, (1 / (dl.numBatches : ℚ)) * (k : ℚ)⟩]⟩) := by
  have hnQ : (0 : ℚ) < ((dl.numBatches : ℚ)) := by exact_mod_cast hn
  have hkQ : (1 : ℚ) ≤ ((k : ℚ)) := by exact_mod_cast hk
  have h1 : (0 : ℚ) < (1 / (dl.numBatches : ℚ)) * (k : ℚ) := by
    apply mul_pos (by positivity) (by linarith)
  have h2 : (1 / (dl.numBatches : ℚ)) * (k : ℚ) ≤ 1 := by
    rw [one_div, inv_mul_eq_div]
    exact div_le_one_of_le₀ (by exact_mod_cast hkn) (le_of_lt hnQ)
  have hopt : (make_private engine module optimizer dl σ γ bf lr).2.1
      = .dp optimizer.unwrapInner
          ⟨σ, γ,
           (((_prepare_data_loader dl).datasetSize : ℚ)
              * (1 / ((_prepare_data_loader dl).numBatches : ℚ))).floor.toNat,
           lr, 0, some (1 / ((_prepare_data_loader dl).numBatches : ℚ))⟩ := rfl
  have hnb : (_prepare_data_loader dl).numBatches = dl.numBatches := by
    unfold _prepare_data_loader DPDataLoader.from_data_loader
    split <;> rfl
  rw [hopt, hnb]
  exact step_after_virtual optimizer.unwrapInner σ γ (1 / (dl.numBatches : ℚ)) _ lr k acct
    (by omega) (not_le.mpr hσ) (not_le.mpr h1) (not_lt.mpr h2)

/-- Witness for C2 at a concrete input: 4 batches, k = 2 virtual steps, one
real step, starting from the empty ledger: exactly the entry
(σ = 1, sample rate = (1/4)·2) is recorded. -/
theorem virtual_then_real_step_records_one_witness :
    DPOptimizer.step
        (Optim.virtual_step^[2]
          ((make_private ⟨⟨[]⟩, false⟩ (.plain []) (.base 0) ⟨false, 4, 22⟩ 1 1 true .mean).2.1))
        ⟨[]⟩
      = .ok ((make_private ⟨⟨[]⟩, false⟩ (.plain []) (.base 0) ⟨false, 4, 22⟩ 1 1 true .mean).2.1,
             ⟨([] : List PrivacyStep) ++ [⟨1, (1 / ((4 : ℕ) : ℚ)) * ((2 : ℕ) : ℚ)⟩]⟩) :=
  virtual_then_real_step_records_one ⟨⟨[]⟩, false⟩ (.plain []) (.base 0)
    ⟨false, 4, 22⟩ 1 1 true .mean 2 ⟨[]⟩ (by decide) (by decide) (by decide) (by decide)

/-- The scan raises on a stale trainable parameter, provided no trainable
parameter carrying per-example gradients precedes it (a stale trainable
parameter earlier in the list also raises, so the hypothesis only excludes an
earlier break of the loop). -/
theorem hookScan_error_of_stale (l₁ l₂ : List Param) (p : Param)
    (hp1 : p.requires_grad = true) (hp2 : p.grad_has_noise = true)
    (h : ∀ q ∈ l₁, q.requires_grad = true → q.has_grad_sample = false) :
    hookScan (l₁ ++ p :: l₂) = .error .unclearedGradient := by
  induction l₁ with
  | nil => simp [hookScan, hp1, hp2]
  | cons q l₁ ih =>
    have ih' := ih (fun r hr hrr => h r (List.mem_cons_of_mem _ hr) hrr)
    cases hqr : q.requires_grad with
    | false => simpa [hookScan, hqr] using ih'
    | true =>
      have hqs : q.has_grad_sample = false := h q (List.mem_cons_self _ _) hqr
      cases hqn : q.grad_has_noise with
      | true => simp [hookScan, hqr, hqn]
      | false => simpa [hookScan, hqr, hqn, hqs] using ih'

/-- The scan reports per-example gradients present when some trainable
parameter carries them and every trainable parameter before the first such one
is neither stale nor carrying per-example gradients. -/
theorem hookScan_ok_of_grad_sample (l₁ l₂ : List Param) (p : Param)
    (hp1 : p.requires_grad = true) (hp2 : p.grad_has_noise = false)
    (hp3 : p.has_grad_sample = true)
    (h : ∀ q ∈ l₁, q.requires_grad = true →
          q.grad_has_noise = false ∧ q.has_grad_sample = false) :
    hookScan (l₁ ++ p :: l₂) = .ok true := by
  induction l₁ with
  | nil => simp [hookScan, hp1, hp2, hp3]
  | cons q l₁ ih =>
    have ih' := ih (fun r hr hrr => h r (List.mem_cons_of_mem _ hr) hrr)
    cases hqr : q.requires_grad with
    | false => simpa [hookScan, hqr] using ih'
    | true =>
      obtain ⟨hqn, hqs⟩ := h q (List.mem_cons_self _ _) hqr
      simpa [hookScan, hqr, hqn, hqs] using ih'

/-- C1 counterexample: the claim fails as stated.  At a concrete input, a
trainable parameter whose gradient buffer is marked as containing noise
(stale) is present, yet the registered pre-forward hook does not raise: the
source loop (src lines 57-69) breaks at the first trainable parameter carrying
per-example gradients, which here precedes the stale one, and silently
proceeds to the virtual step. -/
theorem pre_forward_hook_stale_counterexample :
    ((Param.mk true true false) ∈ [Param.mk true false true, Param.mk true true false]
      ∧ (Param.mk true true false).requires_grad = true
      ∧ (Param.mk true true false).grad_has_noise = true)
  ∧ virtual_step_hook [Param.mk true false true, Param.mk true true false]
        (Optim.dp (.base 0) (DPState.mk 1 1 10 .mean 0 (some (1/10))))
      ≠ .error .unclearedGradient := by
  refine ⟨⟨by simp, rfl, rfl⟩, ?_⟩
  have hok : virtual_step_hook [Param.mk true false true, Param.mk true true false]
        (Optim.dp (.base 0) (DPState.mk 1 1 10 .mean 0 (some (1/10))))
      = .ok ([Param.mk true false false, Param.mk true false false],
             Optim.dp (.base 0) (DPState.mk 1 1 10 .mean 1 (some (1/10)))) := rfl
  rw [hok]
  exact fun hcontra => Except.noConfusion hcontra

/-- C1 amended: the pre-forward hook registered by `make_private` raises
`UnclearedGradientError` when a stale (already-noised) gradient sits on a
trainable parameter that is not preceded by a trainable parameter carrying
per-example gradients (the source loop stops at the first such parameter);
otherwise, when per-example gradients from a just-completed backward pass are
present (and no stale trainable parameter precedes the first of them), it
performs the virtual-step accumulation on the optimizer and clears the
per-example gradient buffers; and the hook `make_private` registers on the
returned module is bound to the returned optimizer. -/
theorem pre_forward_hook_amended :
    (∀ (l₁ l₂ : List Param) (p : Param) (optimizer : Optim),
        p.requires_grad = true → p.grad_has_noise = true →
        (∀ q ∈ l₁, q.requires_grad = true → q.has_grad_sample = false) →
        virtual_step_hook (l₁ ++ p :: l₂) optimizer = .error .unclearedGradient)
  ∧ (∀ (l₁ l₂ : List Param) (p : Param) (optimizer : Optim),
        p.requires_grad = true → p.grad_has_noise = false → p.has_grad_sample = true →
        (∀ q ∈ l₁, q.requires_grad = true →
            q.grad_has_noise = false ∧ q.has_grad_sample = false) →
        virtual_step_hook (l₁ ++ p :: l₂) optimizer
          = .ok ((l₁ ++ p :: l₂).map Param.zero_grad, optimizer.virtual_step))
  ∧ (∀ (engine : PrivacyEngine) (module : Module) (optimizer : Optim)
        (dl : DataLoader) (σ γ : ℚ) (bf : Bool) (lr : LossReduction),
        (make_private engine module optimizer dl σ γ bf lr).1.preHook
          = some ((make_private engine module optimizer dl σ γ bf lr).2.1)) := by
  refine ⟨?_, ?_, ?_⟩
  · intro l₁ l₂ p optimizer hp1 hp2 h
    simp [virtual_step_hook, hookScan_error_of_stale l₁ l₂ p hp1 hp2 h]
  · intro l₁ l₂ p optimizer hp1 hp2 hp3 h
    simp [virtual_step_hook, hookScan_ok_of_grad_sample l₁ l₂ p hp1 hp2 hp3 h]
  · intro engine module optimizer dl σ γ bf lr
    cases module <;> rfl

/-- Witness for C1 amended at concrete inputs: a lone stale trainable
parameter raises; a fresh per-example gradient behind a skipped non-trainable
parameter triggers the virtual step and the clearing; the hook registered by
`make_private` is bound to the returned optimizer. -/
theorem pre_forward_hook_amended_witness :
    virtual_step_hook ([] ++ (Param.mk true true false) :: []) (.base 0)
      = .error .unclearedGradient
  ∧ virtual_step_hook ([Param.mk false true true] ++ (Param.mk true false true) :: []) (.base 0)
      = .ok (([Param.mk false true true] ++ (Param.mk true false true) :: []).map Param.zero_grad,
             (Optim.base 0).virtual_step)
  ∧ (make_private ⟨⟨[]⟩, false⟩ (.plain []) (.base 0) ⟨false, 2, 10⟩ 1 1 true .mean).1.preHook
      = some ((make_private ⟨⟨[]⟩, false⟩ (.plain []) (.base 0) ⟨false, 2, 10⟩ 1 1 true .mean).2.1) :=
  ⟨pre_forward_hook_amended.1 [] [] (Param.mk true true false) (.base 0) rfl rfl (by simp),
   pre_forward_hook_amended.2.1 [Param.mk false true true] [] (Param.mk true false true)
     (.base 0) rfl rfl rfl (by decide),
   pre_forward_hook_amended.2.2 ⟨⟨[]⟩, false⟩ (.plain []) (.base 0) ⟨false, 2, 10⟩ 1 1 true .mean⟩

/-- Appending one step adds that step's per-step Rényi bound to each per-order
cumulative bound. -/
theorem eps_alpha_append (rdpBound : ℝ → ℝ → ℝ → ℝ) (delta : ℝ)
    (L : List PrivacyStep) (s : PrivacyStep) (alpha : ℝ) :
    eps_alpha rdpBound delta (L ++ [s]) alpha
      = eps_alpha rdpBound delta L alpha
        + rdpBound alpha (s.noise_multiplier : ℝ) (s.sample_rate : ℝ) := by
  unfold eps_alpha
  rw [List.map_append, List.sum_append]
  simp
  ring

/-- A fold of `min` over pointwise-dominated values is dominated. -/
theorem foldl_min_mono (l : List ℝ) (f g : ℝ → ℝ)
    (h : ∀ x ∈ l, f x ≤ g x) :
    ∀ a b : ℝ, a ≤ b → (l.map f).foldl min a ≤ (l.map g).foldl min b := by
  induction l with
  | nil =>
    intro a b hab
    simpa
  | cons x l ih =>
    intro a b hab
    simp only [List.map_cons, List.foldl_cons]
    exact ih (fun y hy => h y (List.mem_cons_of_mem _ hy)) _ _
      (min_le_min hab (h x (List.mem_cons_self _ _)))

/-- C7: for every non-empty ledger and fixed δ in (0,1), the ε returned by
`get_epsilon` (which reads `compute_epsilon` through `get_privacy_spent[0]`)
is non-decreasing when one further PrivacyStep with positive noise multiplier
and sample rate in (0,1] is appended: composition only ever costs privacy
budget.  The per-step subsampled-Gaussian Rényi bound is any function that is
non-negative on valid steps — non-negativity of the Rényi divergence is the
defining property the spec's accounting relies on. -/
theorem get_epsilon_monotone_append
    (rdpBound : ℝ → ℝ → ℝ → ℝ) (alpha0 : ℝ) (orders : List ℝ) (delta : ℝ)
    (L : List PrivacyStep) (s : PrivacyStep) (b : Bool) (A : Option (List ℝ))
    (hL : L ≠ []) (hd0 : 0 < delta) (hd1 : delta < 1)
    (hσ : 0 < s.noise_multiplier) (hq0 : 0 < s.sample_rate)
    (hq1 : s.sample_rate ≤ 1)
    (hrdp : ∀ (alpha σ q : ℝ), 0 < σ → 0 < q → q ≤ 1 → 0 ≤ rdpBound alpha σ q) :
    PrivacyEngine.get_epsilon ⟨⟨L⟩, b⟩ rdpBound alpha0 orders delta A
      ≤ PrivacyEngine.get_epsilon ⟨⟨L ++ [s]⟩, b⟩ rdpBound alpha0 orders delta A := by
  have hnn : ∀ alpha : ℝ,
      0 ≤ rdpBound alpha (s.noise_multiplier : ℝ) (s.sample_rate : ℝ) := fun alpha =>
    hrdp alpha _ _ (by exact_mod_cast hσ) (by exact_mod_cast hq0) (by exact_mod_cast hq1)
  have key : ∀ alpha : ℝ,
      eps_alpha rdpBound delta L alpha ≤ eps_alpha rdpBound delta (L ++ [s]) alpha := by
    intro alpha
    rw [eps_alpha_append]
    linarith [hnn alpha]
  unfold PrivacyEngine.get_epsilon RDPAccountant.get_privacy_spent compute_epsilon
  exact foldl_min_mono orders _ _ (fun x _ => key x) _ _ (key alpha0)

/-- Witness for C7 at a concrete input: one recorded step (σ=1, q=1/100),
δ = 1/2, a constant zero Rényi bound, appending the same step again. -/
theorem get_epsilon_monotone_append_witness :
    PrivacyEngine.get_epsilon ⟨⟨[⟨1, 1/100⟩]⟩, false⟩ (fun _ _ _ => 0) 2 [] (1/2) none
      ≤ PrivacyEngine.get_epsilon ⟨⟨[⟨1, 1/100⟩] ++ [⟨1, 1/100⟩]⟩, false⟩
          (fun _ _ _ => 0) 2 [] (1/2) none :=
  get_epsilon_monotone_append (fun _ _ _ => 0) 2 [] (1/2) [⟨1, 1/100⟩] ⟨1, 1/100⟩
    false none (by simp) (by norm_num) (by norm_num) (by norm_num) (by norm_num)
    (by norm_num) (fun _ _ _ _ _ _ => le_refl 0)

end Opacus
